import Mathlib

/-!
Shallow embedding of `src/pharmacogenomics_decision_support.py`:
the CPIC pharmacogenomics decision-support pipeline.  Python floats in this
program only ever carry values in steps of 0.5 (plus `float('inf')` as a
range upper bound), on which binary floating point is exact, so activity
scores are embedded as `Rat` and an unbounded upper limit as `none` in an
`Option Rat`.  Python dicts are embedded as association lists in insertion
order, with `List.lookup` as subscripting; a `continue` in a parsing loop
becomes the `none` branch of a `filterMap`; an uncaught dict `KeyError`
becomes an `Option`/`Except` error value.
-/

namespace PGx

/-- `class PhenotypeActivity(Enum)`, lines 29-34. -/
inductive PhenotypeActivity where
  | NORMAL
  | DECREASED
  | NO_FUNCTION
  | INCREASED
  | UNCERTAIN
deriving DecidableEq, Repr

/-- `class RecommendationStrength(Enum)`, lines 23-27. -/
inductive RecommendationStrength where
  | STRONG
  | MODERATE
  | OPTIONAL
  | NO_RECOMMENDATION
deriving DecidableEq, Repr

/-- `@dataclass Allele`, lines 36-41. -/
structure Allele where
  symbol : String
  function : PhenotypeActivity
  activity_score : Rat
deriving DecidableEq, Repr

/-- `@dataclass Genotype`, lines 43-49. -/
structure Genotype where
  gene : String
  allele1 : Allele
  allele2 : Allele
  diplotype : String
deriving DecidableEq, Repr

/-- `Genotype.activity_score` property, lines 51-53. -/
def Genotype.activity_score (g : Genotype) : Rat :=
  g.allele1.activity_score + g.allele2.activity_score

/-- `@dataclass Phenotype`, lines 55-61. -/
structure Phenotype where
  gene : String
  phenotype : String
  activity_score : Rat
  metabolizer_status : String
deriving DecidableEq, Repr

/-- `@dataclass DrugRecommendation`, lines 63-74. -/
structure DrugRecommendation where
  drug : String
  gene : String
  patient_phenotype : String
  recommendation : String
  strength : RecommendationStrength
  rationale : String
  alternative_drugs : List String
  dose_modification : Option String
  monitoring : Option String
deriving DecidableEq, Repr

/-- `CPICKnowledgeBase._load_allele_definitions`, lines 86-109: per-gene
allele tables, as an association list of association lists. -/
def allele_definitions : List (String × List (String × Allele)) :=
  [ ("CYP2C19",
      [ ("*1", ⟨"*1", .NORMAL, 1⟩),
        ("*2", ⟨"*2", .NO_FUNCTION, 0⟩),
        ("*3", ⟨"*3", .NO_FUNCTION, 0⟩),
        ("*4", ⟨"*4", .NO_FUNCTION, 0⟩),
        ("*17", ⟨"*17", .INCREASED, 1.5⟩) ]),
    ("DPYD",
      [ ("*1", ⟨"*1", .NORMAL, 1⟩),
        ("*2A", ⟨"*2A", .NO_FUNCTION, 0⟩),
        ("*13", ⟨"*13", .NO_FUNCTION, 0⟩),
        ("c.2846A>T", ⟨"c.2846A>T", .DECREASED, 0.5⟩),
        ("c.1236G>A", ⟨"c.1236G>A", .DECREASED, 0.5⟩) ]),
    ("TPMT",
      [ ("*1", ⟨"*1", .NORMAL, 1⟩),
        ("*2", ⟨"*2", .DECREASED, 0.5⟩),
        ("*3A", ⟨"*3A", .NO_FUNCTION, 0⟩),
        ("*3C", ⟨"*3C", .NO_FUNCTION, 0⟩) ]) ]

/-- One `(low, high, label)` activity range; `high = none` embeds
`float('inf')` (unbounded above). -/
structure ActivityRange where
  low : Rat
  high : Option Rat
  label : String
deriving DecidableEq, Repr

/-- `CPICKnowledgeBase._load_phenotype_mappings`, lines 111-137: the
`activity_ranges` table of each gene, in stored order. -/
def phenotype_mappings : List (String × List ActivityRange) :=
  [ ("CYP2C19",
      [ ⟨0, some 0.5, "Poor Metabolizer"⟩,
        ⟨0.5, some 1.5, "Intermediate Metabolizer"⟩,
        ⟨1.5, some 2, "Normal Metabolizer"⟩,
        ⟨2, some 3, "Rapid Metabolizer"⟩,
        ⟨3, none, "Ultrarapid Metabolizer"⟩ ]),
    ("DPYD",
      [ ⟨0, some 0.5, "DPD Deficiency"⟩,
        ⟨0.5, some 1.5, "DPD Intermediate Activity"⟩,
        ⟨1.5, some 2, "DPD Normal Activity"⟩ ]),
    ("TPMT",
      [ ⟨0, some 0.5, "Poor Metabolizer"⟩,
        ⟨0.5, some 1.5, "Intermediate Metabolizer"⟩,
        ⟨1.5, some 2, "Normal Metabolizer"⟩ ]) ]

/-- Per-drug guideline: target gene plus phenotype → recommendation table. -/
structure DrugGuideline where
  gene : String
  recommendations : List (String × DrugRecommendation)
deriving DecidableEq, Repr

/-- `CPICKnowledgeBase._load_drug_guidelines`, lines 139-267. -/
def drug_guidelines : List (String × DrugGuideline) :=
  [ ("clopidogrel",
      { gene := "CYP2C19",
        recommendations :=
          [ ("Poor Metabolizer",
              { drug := "clopidogrel", gene := "CYP2C19",
                patient_phenotype := "Poor Metabolizer",
                recommendation := "Consider alternative P2Y12 inhibitor (prasugrel, ticagrelor)",
                strength := .STRONG,
                rationale := "Significantly reduced platelet inhibition; increased risk for adverse cardiovascular events",
                alternative_drugs := ["prasugrel", "ticagrelor"],
                dose_modification := none,
                monitoring := some "Enhanced monitoring for cardiovascular events" }),
            ("Intermediate Metabolizer",
              { drug := "clopidogrel", gene := "CYP2C19",
                patient_phenotype := "Intermediate Metabolizer",
                recommendation := "Consider alternative P2Y12 inhibitor or platelet function testing",
                strength := .MODERATE,
                rationale := "Reduced platelet inhibition; potential increased risk for adverse cardiovascular events",
                alternative_drugs := ["prasugrel", "ticagrelor"],
                dose_modification := none,
                monitoring := some "Consider platelet function testing" }),
            ("Normal Metabolizer",
              { drug := "clopidogrel", gene := "CYP2C19",
                patient_phenotype := "Normal Metabolizer",
                recommendation := "Standard dosing",
                strength := .STRONG,
                rationale := "Normal platelet inhibition expected",
                alternative_drugs := [],
                dose_modification := some "75 mg daily",
                monitoring := some "Standard monitoring" }),
            ("Rapid Metabolizer",
              { drug := "clopidogrel", gene := "CYP2C19",
                patient_phenotype := "Rapid Metabolizer",
                recommendation := "Standard dosing",
                strength := .STRONG,
                rationale := "Normal to enhanced platelet inhibition expected",
                alternative_drugs := [],
                dose_modification := some "75 mg daily",
                monitoring := some "Standard monitoring" }) ] }),
    ("5-fluorouracil",
      { gene := "DPYD",
        recommendations :=
          [ ("DPD Deficiency",
              { drug := "5-fluorouracil", gene := "DPYD",
                patient_phenotype := "DPD Deficiency",
                recommendation := "Avoid 5-fluorouracil and related drugs",
                strength := .STRONG,
                rationale := "Complete or severe DPD deficiency; high risk of severe, potentially fatal toxicity",
                alternative_drugs := ["non-fluoropyrimidine regimens"],
                dose_modification := none,
                monitoring := none }),
            ("DPD Intermediate Activity",
              { drug := "5-fluorouracil", gene := "DPYD",
                patient_phenotype := "DPD Intermediate Activity",
                recommendation := "Start with 50% dose reduction",
                strength := .STRONG,
                rationale := "Reduced DPD activity; increased risk of severe toxicity with standard dosing",
                alternative_drugs := ["non-fluoropyrimidine regimens"],
                dose_modification := some "Start with 50% of standard dose; titrate based on tolerance",
                monitoring := some "Enhanced toxicity monitoring" }),
            ("DPD Normal Activity",
              { drug := "5-fluorouracil", gene := "DPYD",
                patient_phenotype := "DPD Normal Activity",
                recommendation := "Standard dosing",
                strength := .STRONG,
                rationale := "Normal DPD activity expected",
                alternative_drugs := [],
                dose_modification := some "Standard dose",
                monitoring := some "Standard monitoring" }) ] }),
    ("capecitabine",
      { gene := "DPYD",
        recommendations :=
          [ ("DPD Deficiency",
              { drug := "capecitabine", gene := "DPYD",
                patient_phenotype := "DPD Deficiency",
                recommendation := "Avoid capecitabine",
                strength := .STRONG,
                rationale := "Complete or severe DPD deficiency; high risk of severe, potentially fatal toxicity",
                alternative_drugs := ["non-fluoropyrimidine regimens"],
                dose_modification := none,
                monitoring := none }),
            ("DPD Intermediate Activity",
              { drug := "capecitabine", gene := "DPYD",
                patient_phenotype := "DPD Intermediate Activity",
                recommendation := "Start with 50% dose reduction",
                strength := .STRONG,
                rationale := "Reduced DPD activity; increased risk of severe toxicity with standard dosing",
                alternative_drugs := ["non-fluoropyrimidine regimens"],
                dose_modification := some "Start with 50% of standard dose; titrate based on tolerance",
                monitoring := some "Enhanced toxicity monitoring" }),
            ("DPD Normal Activity",
              { drug := "capecitabine", gene := "DPYD",
                patient_phenotype := "DPD Normal Activity",
                recommendation := "Standard dosing",
                strength := .STRONG,
                rationale := "Normal DPD activity expected",
                alternative_drugs := [],
                dose_modification := some "Standard dose per protocol",
                monitoring := some "Standard monitoring" }) ] }) ]

/-- `self.supported_genes = list(self.kb.allele_definitions.keys())`, line 274. -/
def supported_genes : List String := allele_definitions.map Prod.fst

/-- `self.supported_drugs = list(self.kb.drug_guidelines.keys())`, line 275. -/
def supported_drugs : List String := drug_guidelines.map Prod.fst

/-- Python's `diplotype_str.split("/")` (line 288): split on every
occurrence of the one-character separator `/`, keeping empty segments,
embedded structurally over the string's character list. -/
def splitSlash (s : String) : List String :=
  (s.data.splitOn '/').map List.asString

/-- One iteration of the `parse_genotype_input` loop (lines 282-311) for a
single `(gene, diplotype_str)` entry: `none` embeds each `continue` /
skip branch (unsupported gene, token count ≠ 2, unknown allele), `some`
the appended `Genotype`. -/
def parseEntry (entry : String × String) : Option Genotype :=
  if entry.1 ∈ supported_genes then
    match splitSlash entry.2 with
    | [allele1_name, allele2_name] =>
      match allele_definitions.lookup entry.1 with
      | some defs =>
        match defs.lookup allele1_name, defs.lookup allele2_name with
        | some allele1, some allele2 =>
            some ⟨entry.1, allele1, allele2, entry.2⟩
        | _, _ => none
      | none => none
    | _ => none
  else none

/-- `PharmacogenomicsDecisionSupport.parse_genotype_input`, lines 278-313:
collects the successfully parsed entries in input order, skipping the rest. -/
def parse_genotype_input (genotype_data : List (String × String)) : List Genotype :=
  genotype_data.filterMap parseEntry

/-- The guard `min_score <= activity_score < max_score` of line 325, with
`max_score = float('inf')` embedded as `none` (always satisfied above). -/
def rangeMatches (s : Rat) (r : ActivityRange) : Bool :=
  decide (r.low ≤ s) &&
    (match r.high with
     | some h => decide (s < h)
     | none => true)

/-- The `for min_score, max_score, phenotype in ranges` loop of lines
323-327: first matching range wins, default label "Unknown". -/
def classifyLoop (ranges : List ActivityRange) (s : Rat) : String :=
  match ranges with
  | [] => "Unknown"
  | r :: rest => if rangeMatches s r then r.label else classifyLoop rest s

/-- `PharmacogenomicsDecisionSupport.predict_phenotype`, lines 315-336.
`none` embeds the `KeyError` the subscript
`self.kb.phenotype_mappings[gene]` raises for a gene absent from the
mappings table. -/
def predict_phenotype (genotype : Genotype) : Option Phenotype :=
  match phenotype_mappings.lookup genotype.gene with
  | none => none
  | some ranges =>
      let phenotype_name := classifyLoop ranges genotype.activity_score
      some ⟨genotype.gene, phenotype_name, genotype.activity_score, phenotype_name⟩

/-- The `for phenotype in phenotypes` search of lines 352-356: first
phenotype whose gene matches the drug's target gene. -/
def findRelevantPhenotype (phenotypes : List Phenotype) (target_gene : String) :
    Option Phenotype :=
  phenotypes.find? (fun p => p.gene == target_gene)

/-- One iteration of the `get_drug_recommendations` loop (lines 343-363)
for a single drug: `none` embeds each skip branch (unsupported drug, no
phenotype for the target gene, no guideline entry for the phenotype). -/
def resolveDrug (phenotypes : List Phenotype) (drug : String) :
    Option DrugRecommendation :=
  match drug_guidelines.lookup drug with
  | none => none
  | some drug_guideline =>
      match findRelevantPhenotype phenotypes drug_guideline.gene with
      | none => none
      | some relevant_phenotype =>
          drug_guideline.recommendations.lookup relevant_phenotype.phenotype

/-- `PharmacogenomicsDecisionSupport.get_drug_recommendations`, lines
338-365: appends the resolved recommendations in requested-drug order,
skipping drugs that resolve to nothing. -/
def get_drug_recommendations (phenotypes : List Phenotype)
    (drug_list : List String) : List DrugRecommendation :=
  drug_list.filterMap (resolveDrug phenotypes)

/-- The dict returned by `_generate_summary`, lines 407-414. -/
structure Summary where
  total_genes_tested : Nat
  actionable_genes : List String
  high_priority_recommendations : Nat
  requires_intervention : Bool
  genes_tested : List String
  phenotype_summary : List (String × String)
deriving DecidableEq, Repr

/-- `normal_phenotypes = ["Normal Metabolizer", "DPD Normal Activity"]`,
line 403: a single global list, not a per-gene set. -/
def normal_phenotypes : List String := ["Normal Metabolizer", "DPD Normal Activity"]

/-- `PharmacogenomicsDecisionSupport._generate_summary`, lines 400-414. -/
def generate_summary (phenotypes : List Phenotype)
    (recommendations : List DrugRecommendation) : Summary :=
  let actionable_genes :=
    (phenotypes.filter (fun p => !(p.phenotype ∈ normal_phenotypes : Bool))).map
      (fun p => p.gene)
  let high_priority_recs :=
    recommendations.filter (fun r => r.strength == RecommendationStrength.STRONG)
  { total_genes_tested := phenotypes.length
    actionable_genes := actionable_genes
    high_priority_recommendations := high_priority_recs.length
    requires_intervention := decide (0 < actionable_genes.length)
    genes_tested := phenotypes.map (fun p => p.gene)
    phenotype_summary := phenotypes.map (fun p => (p.gene, p.phenotype)) }

/-- The report dict built at lines 384-391; the timestamp field carries the
`datetime.now().isoformat()` string, passed in explicitly since it is the
only non-deterministic input of the pipeline. -/
structure Report where
  patient_id : String
  timestamp : String
  genotypes : List Genotype
  phenotypes : List Phenotype
  recommendations : List DrugRecommendation
  summary : Summary
deriving DecidableEq, Repr

/-- The comprehension `[self.predict_phenotype(gt) for gt in genotypes]`
(line 378): collects every prediction in order, but propagates an
exception (`none`) as soon as one `predict_phenotype` call raises. -/
def predictAll : List Genotype → Option (List Phenotype)
  | [] => some []
  | gt :: rest =>
    match predict_phenotype gt with
    | none => none
    | some p =>
      match predictAll rest with
      | none => none
      | some ps => some (p :: ps)

/-- The `try` body of `process_patient`, lines 374-394; `none` is an
exception propagating out of the body. -/
def processBody (patient_id : String) (genotype_data : List (String × String))
    (requested_drugs : List String) (timestamp : String) : Option Report :=
  let genotypes := parse_genotype_input genotype_data
  match predictAll genotypes with
  | none => none
  | some phenotypes =>
      let recommendations := get_drug_recommendations phenotypes requested_drugs
      some { patient_id := patient_id
             timestamp := timestamp
             genotypes := genotypes
             phenotypes := phenotypes
             recommendations := recommendations
             summary := generate_summary phenotypes recommendations }

/-- The `except Exception` clause of `process_patient`, lines 396-398: the
handler logs (a side effect with no result value) and then executes a bare
`raise`, re-raising the ORIGINAL exception unchanged.  Its behaviour as a
function of the `try` body's outcome: an `ok` body result passes through,
an in-body exception `e` propagates as exactly `e`. -/
def processPatientHandler (patient_id : String) (body : Except String Report) :
    Except String Report :=
  match body with
  | .ok report => .ok report
  | .error e => .error e

/-- `PharmacogenomicsDecisionSupport.process_patient`, lines 367-398: the
`try` body wrapped in the except/re-raise handler.  The only in-body
exception reachable in the embedding is the `KeyError` of
`predict_phenotype` (line 321). -/
def process_patient (patient_id : String) (genotype_data : List (String × String))
    (requested_drugs : List String) (timestamp : String) : Except String Report :=
  processPatientHandler patient_id
    (match processBody patient_id genotype_data requested_drugs timestamp with
     | some report => .ok report
     | none => .error "KeyError")

/-- The spec's reading of the classifier: the label of the FIRST stored
range `r` with `low ≤ score < high`, the sentinel "Unknown" when none
matches.  Stated via `List.find?` to compare with the loop `classifyLoop`
translated from the code. -/
def labelOfFirstMatch (ranges : List ActivityRange) (s : Rat) : String :=
  match ranges.find? (fun r => rangeMatches s r) with
  | some r => r.label
  | none => "Unknown"

/-- Modelled from the spec (§4.6 and claim C7): the per-gene declared
normal-label sets — CYP2C19 → {"Normal Metabolizer"}, DPYD → {"DPD Normal
Activity"}, and analogously TPMT → {"Normal Metabolizer"}.  The code has
no such per-gene structure; this definition exists only to compare the
code's single global `normal_phenotypes` list against the spec's wording. -/
def specNormalLabelSet : String → List String
  | "CYP2C19" => ["Normal Metabolizer"]
  | "DPYD" => ["DPD Normal Activity"]
  | "TPMT" => ["Normal Metabolizer"]
  | _ => []

/-- Erase the one non-deterministic report field (the timestamp of line
386), for comparing two runs of `process_patient` on the same inputs. -/
def Report.withoutTimestamp (r : Report) : Report :=
  { r with timestamp := "" }

/-- Knowledge-base-wide check for claim C5: for every supported gene and
every ordered pair of known allele tokens `(t1, t2)`, the diplotype
`"t1/t2"` parses, its activity score is the sum of the two alleles'
weights, and the score of the reversed diplotype `"t2/t1"` is the same. -/
def allPairsScoreCheck : Bool :=
  allele_definitions.all (fun gdefs =>
    gdefs.2.all (fun e1 =>
      gdefs.2.all (fun e2 =>
        match parseEntry (gdefs.1, e1.1 ++ "/" ++ e2.1),
              parseEntry (gdefs.1, e2.1 ++ "/" ++ e1.1) with
        | some gt, some gt2 =>
            decide (gt.activity_score = e1.2.activity_score + e2.2.activity_score) &&
              decide (gt.activity_score = gt2.activity_score)
        | _, _ => false)))

end PGx

namespace PGx

/-! ### Helper lemmas -/

/-- A successful association-list lookup returns a stored binding. -/
theorem lookup_eq_some_mem {β : Type} :
    ∀ (l : List (String × β)) (k : String) (v : β),
      l.lookup k = some v → (k, v) ∈ l := by
  intro l
  induction l with
  | nil => intro k v h; simp [List.lookup] at h
  | cons hd tl ih =>
    intro k v h
    obtain ⟨k1, v1⟩ := hd
    cases hk : (k == k1) with
    | true =>
      simp only [List.lookup, hk] at h
      obtain rfl : v1 = v := by injection h
      obtain rfl : k = k1 := eq_of_beq hk
      exact List.mem_cons_self _ _
    | false =>
      simp only [List.lookup, hk] at h
      exact List.mem_cons_of_mem _ (ih k v h)

/-- The classification loop is first-match search with default "Unknown". -/
theorem classifyLoop_eq_labelOfFirstMatch (ranges : List ActivityRange) (s : Rat) :
    classifyLoop ranges s = labelOfFirstMatch ranges s := by
  induction ranges with
  | nil => rfl
  | cons r rest ih =>
    cases h : rangeMatches s r with
    | true => simp [classifyLoop, labelOfFirstMatch, List.find?, h]
    | false => simpa [classifyLoop, labelOfFirstMatch, List.find?, h] using ih

/-- The classification loop yields the sentinel or a stored label. -/
theorem classifyLoop_unknown_or_mem (ranges : List ActivityRange) (s : Rat) :
    classifyLoop ranges s = "Unknown" ∨
      ∃ r ∈ ranges, classifyLoop ranges s = r.label := by
  induction ranges with
  | nil => exact Or.inl rfl
  | cons r rest ih =>
    cases h : rangeMatches s r with
    | true => exact Or.inr ⟨r, List.mem_cons_self _ _, by simp [classifyLoop, h]⟩
    | false =>
      have heq : classifyLoop (r :: rest) s = classifyLoop rest s := by
        simp [classifyLoop, h]
      rcases ih with h1 | ⟨r1, hr1, h2⟩
      · exact Or.inl (heq.trans h1)
      · exact Or.inr ⟨r1, List.mem_cons_of_mem _ hr1, heq.trans h2⟩

/-- A parsed genotype records the entry's gene, which is supported. -/
theorem parseEntry_gene (entry : String × String) (g : Genotype)
    (h : parseEntry entry = some g) :
    g.gene = entry.1 ∧ entry.1 ∈ supported_genes := by
  unfold parseEntry at h
  split at h
  · rename_i hmem
    split at h
    · split at h
      · split at h
        · injection h with h1
          subst h1
          exact ⟨rfl, hmem⟩
        · exact absurd h (by simp)
      · exact absurd h (by simp)
    · exact absurd h (by simp)
  · exact absurd h (by simp)

/-- Phenotype prediction succeeds on every supported gene. -/
theorem predict_phenotype_isSome (g : Genotype) (h : g.gene ∈ supported_genes) :
    (predict_phenotype g).isSome := by
  obtain ⟨gene, a1, a2, d⟩ := g
  simp only [supported_genes, allele_definitions, List.map, List.mem_cons,
    List.not_mem_nil, or_false] at h
  rcases h with h | h | h <;> (subst h; rfl)

/-- The prediction comprehension succeeds when every element does. -/
theorem predictAll_isSome :
    ∀ l : List Genotype, (∀ gt ∈ l, (predict_phenotype gt).isSome) →
      ∃ ps, predictAll l = some ps := by
  intro l
  induction l with
  | nil => intro _; exact ⟨[], rfl⟩
  | cons gt rest ih =>
    intro h
    obtain ⟨p, hp⟩ := Option.isSome_iff_exists.mp (h gt (List.mem_cons_self _ _))
    obtain ⟨ps, hps⟩ := ih (fun z hz => h z (List.mem_cons_of_mem _ hz))
    exact ⟨p :: ps, by simp [predictAll, hp, hps]⟩

/-- Every recommendation stored under a drug key carries that drug name. -/
theorem guideline_drug_keys :
    drug_guidelines.all (fun dg =>
      dg.2.recommendations.all (fun pr => pr.2.drug == dg.1)) = true := by
  rfl

/-- A resolved recommendation is for the requested drug. -/
theorem resolveDrug_drug_eq (phenotypes : List Phenotype) (drug : String)
    (r : DrugRecommendation) (h : resolveDrug phenotypes drug = some r) :
    r.drug = drug := by
  unfold resolveDrug at h
  split at h
  · exact absurd h (by simp)
  · rename_i guideline hlk
    split at h
    · exact absurd h (by simp)
    · rename_i p hph
      have hmem := lookup_eq_some_mem _ _ _ hlk
      have hmem2 := lookup_eq_some_mem _ _ _ h
      have h1 := List.all_eq_true.mp guideline_drug_keys _ hmem
      have h2 := List.all_eq_true.mp h1 _ hmem2
      exact eq_of_beq h2

end PGx

namespace PGx

/-! ### Claim theorems -/

/-- C1: the claim says every gene's ranges cover `[0, ∞)` with the final
range unbounded above.  The code violates this for DPYD (and TPMT): the
stored DPYD table is exactly the three bounded ranges below, its final
range has upper bound `2` (not `∞`), no DPYD or TPMT range matches the
reachable activity score `2` (e.g. diplotype `*1/*1`), and the classifier
therefore falls through to "Unknown" there. -/
theorem claim_C1 :
    phenotype_mappings.lookup "DPYD" =
      some [⟨0, some 0.5, "DPD Deficiency"⟩,
            ⟨0.5, some 1.5, "DPD Intermediate Activity"⟩,
            ⟨1.5, some 2, "DPD Normal Activity"⟩] ∧
    (phenotype_mappings.lookup "DPYD").map
        (fun rs => (rs.getLast?.map (fun r => r.high), rs.all (fun r => !(rangeMatches 2 r)))) =
      some (some (some 2), true) ∧
    (phenotype_mappings.lookup "TPMT").map
        (fun rs => (rs.getLast?.map (fun r => r.high), rs.all (fun r => !(rangeMatches 2 r)))) =
      some (some (some 2), true) ∧
    (phenotype_mappings.lookup "DPYD").map (fun rs => classifyLoop rs 2) = some "Unknown" ∧
    (phenotype_mappings.lookup "TPMT").map (fun rs => classifyLoop rs 2) = some "Unknown" := by
  refine ⟨rfl, ?_, ?_, ?_, ?_⟩ <;> with_unfolding_all rfl

/-- C4 counterexample: on an in-body exception, the `except` clause of
`process_patient` (lines 396-398) executes a bare `raise`: the call's
outcome is the ORIGINAL, untagged exception, not a failure result carrying
the patient id ("ZeroDivisionError" does not even contain the letter `P`,
so no substring of it can be the patient id "PT001"). -/
theorem claim_C4_counterexample :
    processPatientHandler "PT001" (Except.error "ZeroDivisionError") =
      Except.error "ZeroDivisionError" ∧
    "ZeroDivisionError".data.count 'P' = 0 := by
  exact ⟨rfl, by decide⟩

/-- C4 amended: any unexpected internal failure is logged with the
patient's id but the original exception is re-raised unchanged to the
caller (successful bodies pass through unchanged); no tagged failure
result is returned, so a batch caller must itself catch per-patient
exceptions to continue. -/
theorem claim_C4 (patient_id : String) (e : String) :
    processPatientHandler patient_id (Except.error e) = Except.error e ∧
    ∀ report, processPatientHandler patient_id (Except.ok report) = Except.ok report :=
  ⟨rfl, fun _ => rfl⟩

/-- C5: a genotype's activity score is exactly the arithmetic sum of its
two alleles' activity weights, and is invariant under swapping the two
alleles; `allPairsScoreCheck` confirms both facts through the parser for
every ordered pair of known allele tokens of every supported gene. -/
theorem claim_C5 :
    (∀ (gene diplotype : String) (a1 a2 : Allele),
      (Genotype.mk gene a1 a2 diplotype).activity_score =
          a1.activity_score + a2.activity_score ∧
      (Genotype.mk gene a1 a2 diplotype).activity_score =
          (Genotype.mk gene a2 a1 diplotype).activity_score) ∧
    allPairsScoreCheck = true := by
  constructor
  · intro gene diplotype a1 a2
    exact ⟨rfl, add_comm _ _⟩
  · with_unfolding_all rfl

/-- C8: two `process_patient` runs on the same
`(patientId, genotypeInput, requestedDrugs)` differ at most in the
timestamp field: erasing it makes the two reports (genotypes, phenotypes,
recommendations, summary, patient id) identical. -/
theorem claim_C8 (patient_id : String) (genotype_data : List (String × String))
    (requested_drugs : List String) (t1 t2 : String) :
    (process_patient patient_id genotype_data requested_drugs t1).map Report.withoutTimestamp =
      (process_patient patient_id genotype_data requested_drugs t2).map Report.withoutTimestamp := by
  unfold process_patient processBody processPatientHandler
  cases h : predictAll (parse_genotype_input genotype_data) <;>
    simp [h, Report.withoutTimestamp, Except.map]

/-- C9 (Example A): CYP2C19 diplotype `*2/*2` parses to activity score
`0.0` and phenotype "Poor Metabolizer", and requesting clopidogrel against
that phenotype yields exactly one recommendation, of strength Strong with
alternatives `["prasugrel", "ticagrelor"]`. -/
theorem claim_C9 :
    (parse_genotype_input [("CYP2C19", "*2/*2")]).map Genotype.activity_score = [0] ∧
    predictAll (parse_genotype_input [("CYP2C19", "*2/*2")]) =
      some [⟨"CYP2C19", "Poor Metabolizer", 0, "Poor Metabolizer"⟩] ∧
    (get_drug_recommendations [⟨"CYP2C19", "Poor Metabolizer", 0, "Poor Metabolizer"⟩]
        ["clopidogrel"]).map (fun r => (r.strength, r.alternative_drugs)) =
      [(RecommendationStrength.STRONG, ["prasugrel", "ticagrelor"])] := by
  refine ⟨?_, ?_, ?_⟩ <;> with_unfolding_all rfl

/-- C10: DPYD `*1/*1` scores `2.0`; the last stored DPYD range is
`(1.5, 2.0, "DPD Normal Activity")` and no DPYD range matches `2.0`, so
the phenotype is the sentinel "Unknown"; DPYD is then an actionable gene
(requiresIntervention true) and both DPYD drugs resolve to no
recommendation. -/
theorem claim_C10 :
    (phenotype_mappings.lookup "DPYD").map
        (fun rs => (rs.getLast?, rs.all (fun r => !(rangeMatches 2 r)))) =
      some (some ⟨1.5, some 2, "DPD Normal Activity"⟩, true) ∧
    processBody "P" [("DPYD", "*1/*1")] ["5-fluorouracil", "capecitabine"] "ts" =
      some { patient_id := "P", timestamp := "ts",
             genotypes := [⟨"DPYD", ⟨"*1", .NORMAL, 1⟩, ⟨"*1", .NORMAL, 1⟩, "*1/*1"⟩],
             phenotypes := [⟨"DPYD", "Unknown", 2, "Unknown"⟩],
             recommendations := [],
             summary := { total_genes_tested := 1, actionable_genes := ["DPYD"],
                          high_priority_recommendations := 0, requires_intervention := true,
                          genes_tested := ["DPYD"],
                          phenotype_summary := [("DPYD", "Unknown")] } } := by
  refine ⟨?_, ?_⟩ <;> with_unfolding_all rfl

end PGx

namespace PGx

/-- C2: every recoverable condition only excludes its own entry.  An
unparseable genotype entry (unsupported gene, malformed diplotype,
unknown allele) or an unresolvable drug (unsupported drug, no phenotype
for its target gene, no guideline for the phenotype) is dropped from the
output while every other entry is processed exactly as it would have been
without it, and the pipeline call as a whole always returns an ok report
(no recoverable condition ever raises). -/
theorem claim_C2 :
    (∀ pre entry post, parseEntry entry = none →
      parse_genotype_input (pre ++ entry :: post) = parse_genotype_input (pre ++ post)) ∧
    (∀ pre entry post g, parseEntry entry = some g →
      parse_genotype_input (pre ++ entry :: post) =
        parse_genotype_input pre ++ g :: parse_genotype_input post) ∧
    (∀ phenotypes pre drug post, resolveDrug phenotypes drug = none →
      get_drug_recommendations phenotypes (pre ++ drug :: post) =
        get_drug_recommendations phenotypes (pre ++ post)) ∧
    (∀ phenotypes pre drug post r, resolveDrug phenotypes drug = some r →
      get_drug_recommendations phenotypes (pre ++ drug :: post) =
        get_drug_recommendations phenotypes pre ++
          r :: get_drug_recommendations phenotypes post) ∧
    (∀ patient_id genotype_data requested_drugs timestamp,
      ∃ report, process_patient patient_id genotype_data requested_drugs timestamp =
        Except.ok report) := by
  refine ⟨?_, ?_, ?_, ?_, ?_⟩
  · intro pre entry post h
    simp [parse_genotype_input, List.filterMap_append, List.filterMap_cons, h]
  · intro pre entry post g h
    simp [parse_genotype_input, List.filterMap_append, List.filterMap_cons, h]
  · intro phenotypes pre drug post h
    simp [get_drug_recommendations, List.filterMap_append, List.filterMap_cons, h]
  · intro phenotypes pre drug post r h
    simp [get_drug_recommendations, List.filterMap_append, List.filterMap_cons, h]
  · intro patient_id genotype_data requested_drugs timestamp
    have hAll : ∀ gt ∈ parse_genotype_input genotype_data,
        (predict_phenotype gt).isSome := by
      intro gt hgt
      obtain ⟨e, _, he⟩ := List.mem_filterMap.mp hgt
      obtain ⟨hg, hsup⟩ := parseEntry_gene e gt he
      exact predict_phenotype_isSome gt (hg ▸ hsup)
    obtain ⟨ps, hps⟩ := predictAll_isSome _ hAll
    refine ⟨{ patient_id := patient_id, timestamp := timestamp,
              genotypes := parse_genotype_input genotype_data,
              phenotypes := ps,
              recommendations := get_drug_recommendations ps requested_drugs,
              summary := generate_summary ps
                (get_drug_recommendations ps requested_drugs) }, ?_⟩
    simp only [process_patient, processPatientHandler, processBody, hps]

/-- C2 witness: a bad genotype entry (gene "XYZ") and a bad drug
("warfarin") are each skipped without disturbing the valid entries, a
valid CYP2C19 entry and the clopidogrel resolution go through, and a
whole pipeline call returns ok. -/
theorem claim_C2_witness :
    (parse_genotype_input [("CYP2C19", "*1/*1"), ("XYZ", "*1/*1")] =
      parse_genotype_input [("CYP2C19", "*1/*1")]) ∧
    (parse_genotype_input [("CYP2C19", "*1/*1"), ("XYZ", "*1/*1")] =
      ⟨"CYP2C19", ⟨"*1", .NORMAL, 1⟩, ⟨"*1", .NORMAL, 1⟩, "*1/*1"⟩ ::
        parse_genotype_input [("XYZ", "*1/*1")]) ∧
    (get_drug_recommendations [] ["warfarin", "clopidogrel"] =
      get_drug_recommendations [] ["clopidogrel"]) ∧
    (get_drug_recommendations
        [⟨"CYP2C19", "Poor Metabolizer", 0, "Poor Metabolizer"⟩] ["clopidogrel"] =
      [{ drug := "clopidogrel", gene := "CYP2C19",
         patient_phenotype := "Poor Metabolizer",
         recommendation := "Consider alternative P2Y12 inhibitor (prasugrel, ticagrelor)",
         strength := .STRONG,
         rationale := "Significantly reduced platelet inhibition; increased risk for adverse cardiovascular events",
         alternative_drugs := ["prasugrel", "ticagrelor"],
         dose_modification := none,
         monitoring := some "Enhanced monitoring for cardiovascular events" }]) ∧
    (∃ report, process_patient "P1" [("CYP2C19", "*1/*1")] ["clopidogrel"] "t" =
      Except.ok report) :=
  ⟨claim_C2.1 [("CYP2C19", "*1/*1")] ("XYZ", "*1/*1") [] (by decide),
   claim_C2.2.1 [] ("CYP2C19", "*1/*1") [("XYZ", "*1/*1")]
     ⟨"CYP2C19", ⟨"*1", .NORMAL, 1⟩, ⟨"*1", .NORMAL, 1⟩, "*1/*1"⟩ (by rfl),
   claim_C2.2.2.1 [] [] "warfarin" ["clopidogrel"] (by decide),
   claim_C2.2.2.2.1 [⟨"CYP2C19", "Poor Metabolizer", 0, "Poor Metabolizer"⟩]
     [] "clopidogrel" []
     { drug := "clopidogrel", gene := "CYP2C19",
       patient_phenotype := "Poor Metabolizer",
       recommendation := "Consider alternative P2Y12 inhibitor (prasugrel, ticagrelor)",
       strength := .STRONG,
       rationale := "Significantly reduced platelet inhibition; increased risk for adverse cardiovascular events",
       alternative_drugs := ["prasugrel", "ticagrelor"],
       dose_modification := none,
       monitoring := some "Enhanced monitoring for cardiovascular events" } (by rfl),
   claim_C2.2.2.2.2 "P1" [("CYP2C19", "*1/*1")] ["clopidogrel"] "t"⟩

/-- C3 counterexample: requesting the same drug twice yields TWO
recommendation entries for that one requested drug, so "at most one entry
per requested drug" fails for duplicated request lists. -/
theorem claim_C3_counterexample :
    ((get_drug_recommendations
        [⟨"CYP2C19", "Poor Metabolizer", 0, "Poor Metabolizer"⟩]
        ["clopidogrel", "clopidogrel"]).map (fun r => r.drug)) =
      ["clopidogrel", "clopidogrel"] ∧
    ((get_drug_recommendations
        [⟨"CYP2C19", "Poor Metabolizer", 0, "Poor Metabolizer"⟩]
        ["clopidogrel", "clopidogrel"]).filter
          (fun r => r.drug == "clopidogrel")).length = 2 :=
  ⟨rfl, rfl⟩

/-- C3 amended: the output contains at most one entry per OCCURRENCE in
the requested-drug list, in the caller-supplied order (the drug names of
the output form a sublist of the request list); in particular, when the
requested list has no duplicates, there is at most one entry per drug. -/
theorem claim_C3 (phenotypes : List Phenotype) (drug_list : List String) :
    List.Sublist
      ((get_drug_recommendations phenotypes drug_list).map (fun r => r.drug))
      drug_list ∧
    (drug_list.Nodup → ∀ drug,
      ((get_drug_recommendations phenotypes drug_list).map (fun r => r.drug)).count drug
        ≤ 1) := by
  have hsub : ∀ ds : List String,
      List.Sublist ((get_drug_recommendations phenotypes ds).map (fun r => r.drug)) ds := by
    intro ds
    induction ds with
    | nil => exact List.Sublist.refl _
    | cons d rest ih =>
      simp only [get_drug_recommendations, List.filterMap_cons] at ih ⊢
      cases h : resolveDrug phenotypes d with
      | none => exact ih.cons d
      | some r =>
        simp only [List.map_cons]
        rw [resolveDrug_drug_eq phenotypes d r h]
        exact ih.cons₂ d
  refine ⟨hsub drug_list, ?_⟩
  intro hnd drug
  exact le_trans ((hsub drug_list).count_le drug)
    (List.nodup_iff_count_le_one.mp hnd drug)

/-- C3 witness: for a duplicate-free request the output drug names form a
sublist of the request and clopidogrel appears at most once. -/
theorem claim_C3_witness :
    List.Sublist
      ((get_drug_recommendations
          [⟨"CYP2C19", "Poor Metabolizer", 0, "Poor Metabolizer"⟩]
          ["clopidogrel", "capecitabine"]).map (fun r => r.drug))
      ["clopidogrel", "capecitabine"] ∧
    ((get_drug_recommendations
        [⟨"CYP2C19", "Poor Metabolizer", 0, "Poor Metabolizer"⟩]
        ["clopidogrel", "capecitabine"]).map (fun r => r.drug)).count "clopidogrel" ≤ 1 :=
  ⟨(claim_C3 [⟨"CYP2C19", "Poor Metabolizer", 0, "Poor Metabolizer"⟩]
      ["clopidogrel", "capecitabine"]).1,
   (claim_C3 [⟨"CYP2C19", "Poor Metabolizer", 0, "Poor Metabolizer"⟩]
      ["clopidogrel", "capecitabine"]).2 (by decide) "clopidogrel"⟩

end PGx

namespace PGx

/-- C6: phenotype prediction for any genotype whose gene has a stored
range table returns the label of the FIRST range with
`low ≤ score < high` (`labelOfFirstMatch`, with sentinel "Unknown" when no
range matches, and never raises); the range guard is exactly the half-open
condition; and the result is a pure function of the gene and the activity
score alone. -/
theorem claim_C6 :
    (∀ (genotype : Genotype) (ranges : List ActivityRange),
      phenotype_mappings.lookup genotype.gene = some ranges →
      predict_phenotype genotype = some
        { gene := genotype.gene,
          phenotype := labelOfFirstMatch ranges genotype.activity_score,
          activity_score := genotype.activity_score,
          metabolizer_status := labelOfFirstMatch ranges genotype.activity_score }) ∧
    (∀ (s : Rat) (r : ActivityRange),
      rangeMatches s r = true ↔ (r.low ≤ s ∧ ∀ hb, r.high = some hb → s < hb)) ∧
    (∀ g1 g2 : Genotype, g1.gene = g2.gene → g1.activity_score = g2.activity_score →
      predict_phenotype g1 = predict_phenotype g2) := by
  refine ⟨?_, ?_, ?_⟩
  · intro genotype ranges h
    unfold predict_phenotype
    rw [h]
    simp [classifyLoop_eq_labelOfFirstMatch]
  · intro s r
    unfold rangeMatches
    cases hh : r.high with
    | none => simp [hh]
    | some hb => simp [hh]
  · intro g1 g2 h1 h2
    unfold predict_phenotype
    rw [h1, h2]

/-- C6 witness: the CYP2C19 `*2/*2` genotype is classified through the
stored CYP2C19 range table by first-match search. -/
theorem claim_C6_witness :
    predict_phenotype
        ⟨"CYP2C19", ⟨"*2", .NO_FUNCTION, 0⟩, ⟨"*2", .NO_FUNCTION, 0⟩, "*2/*2"⟩ =
      some { gene := "CYP2C19",
             phenotype := labelOfFirstMatch
               [ ⟨0, some 0.5, "Poor Metabolizer"⟩,
                 ⟨0.5, some 1.5, "Intermediate Metabolizer"⟩,
                 ⟨1.5, some 2, "Normal Metabolizer"⟩,
                 ⟨2, some 3, "Rapid Metabolizer"⟩,
                 ⟨3, none, "Ultrarapid Metabolizer"⟩ ]
               (Genotype.activity_score
                 ⟨"CYP2C19", ⟨"*2", .NO_FUNCTION, 0⟩, ⟨"*2", .NO_FUNCTION, 0⟩, "*2/*2"⟩),
             activity_score := Genotype.activity_score
               ⟨"CYP2C19", ⟨"*2", .NO_FUNCTION, 0⟩, ⟨"*2", .NO_FUNCTION, 0⟩, "*2/*2"⟩,
             metabolizer_status := labelOfFirstMatch
               [ ⟨0, some 0.5, "Poor Metabolizer"⟩,
                 ⟨0.5, some 1.5, "Intermediate Metabolizer"⟩,
                 ⟨1.5, some 2, "Normal Metabolizer"⟩,
                 ⟨2, some 3, "Rapid Metabolizer"⟩,
                 ⟨3, none, "Ultrarapid Metabolizer"⟩ ]
               (Genotype.activity_score
                 ⟨"CYP2C19", ⟨"*2", .NO_FUNCTION, 0⟩, ⟨"*2", .NO_FUNCTION, 0⟩, "*2/*2"⟩) } :=
  claim_C6.1
    ⟨"CYP2C19", ⟨"*2", .NO_FUNCTION, 0⟩, ⟨"*2", .NO_FUNCTION, 0⟩, "*2/*2"⟩
    [ ⟨0, some 0.5, "Poor Metabolizer"⟩,
      ⟨0.5, some 1.5, "Intermediate Metabolizer"⟩,
      ⟨1.5, some 2, "Normal Metabolizer"⟩,
      ⟨2, some 3, "Rapid Metabolizer"⟩,
      ⟨3, none, "Ultrarapid Metabolizer"⟩ ]
    (by rfl)

/-- C7 counterexample: the code decides "actionable" against the single
GLOBAL list `normal_phenotypes`, not against a per-gene normal set: a
phenotype list carrying the DPYD normal label under gene CYP2C19 gives
`requiresIntervention = false`, although that label is NOT in CYP2C19's
declared normal-label set, so the claim's if-and-only-if fails there. -/
theorem claim_C7_counterexample :
    (generate_summary
        [⟨"CYP2C19", "DPD Normal Activity", 0, "DPD Normal Activity"⟩]
        []).requires_intervention = false ∧
    ("DPD Normal Activity" ∈ specNormalLabelSet "CYP2C19" → False) :=
  ⟨rfl, by decide⟩

/-- C7 amended: totalGenesTested and the Strong count are as claimed for
all inputs; requiresIntervention is true iff some phenotype's label lies
outside the GLOBAL two-label normal list; and for phenotype labels the
classifier can actually compute for their gene (the sentinel or a stored
label of that gene's table) the global list agrees with the per-gene
declared normal sets, so the claimed iff holds for all
classifier-computed phenotype lists. -/
theorem claim_C7 (phenotypes : List Phenotype)
    (recommendations : List DrugRecommendation) :
    (generate_summary phenotypes recommendations).total_genes_tested =
      phenotypes.length ∧
    (generate_summary phenotypes recommendations).high_priority_recommendations =
      (recommendations.filter
        (fun r => r.strength == RecommendationStrength.STRONG)).length ∧
    ((generate_summary phenotypes recommendations).requires_intervention = true ↔
      ∃ p ∈ phenotypes, p.phenotype ∉ normal_phenotypes) ∧
    (∀ (gt : Genotype) (p : Phenotype), predict_phenotype gt = some p →
      p.phenotype ∈
        "Unknown" :: ((phenotype_mappings.lookup p.gene).getD []).map
          (fun r => r.label)) ∧
    (∀ p : Phenotype,
      p.phenotype ∈
        "Unknown" :: ((phenotype_mappings.lookup p.gene).getD []).map
          (fun r => r.label) →
      (p.phenotype ∈ normal_phenotypes ↔
        p.phenotype ∈ specNormalLabelSet p.gene)) := by
  refine ⟨rfl, rfl, ?_, ?_, ?_⟩
  · simp [generate_summary, List.length_pos_iff_exists_mem, List.mem_filter]
  · intro gt p h
    unfold predict_phenotype at h
    split at h
    · exact absurd h (by simp)
    · rename_i ranges hlk
      injection h with h1
      subst h1
      simp only [Option.getD_some, hlk]
      rcases classifyLoop_unknown_or_mem ranges gt.activity_score with h2 | ⟨r, hr, h2⟩
      · rw [h2]; exact List.mem_cons_self _ _
      · rw [h2]
        exact List.mem_cons_of_mem _ (List.mem_map_of_mem _ hr)
  · intro p hp
    cases hlk : phenotype_mappings.lookup p.gene with
    | none =>
      rw [hlk] at hp
      simp only [Option.getD_none, List.map_nil] at hp
      have hu : p.phenotype = "Unknown" := by
        rcases List.mem_cons.mp hp with h | h
        · exact h
        · exact absurd h (List.not_mem_nil _)
      rw [hu]
      constructor
      · intro h; exact absurd h (by decide)
      · intro h
        exact absurd h (by unfold specNormalLabelSet; split <;> decide)
    | some ranges =>
      have hmem := lookup_eq_some_mem _ _ _ hlk
      have hall : ∀ gr ∈ phenotype_mappings,
          ∀ lbl ∈ "Unknown" :: gr.2.map (fun r => r.label),
            (lbl ∈ normal_phenotypes ↔ lbl ∈ specNormalLabelSet gr.1) := by decide
      refine hall (p.gene, ranges) hmem p.phenotype ?_
      rw [hlk] at hp
      simpa using hp

end PGx

namespace PGx

/-- C7 witness: a Poor-Metabolizer phenotype makes requiresIntervention
true; the phenotype computed for DPYD `*2A/*1` carries a DPYD-reachable
label; and on reachable labels the global normal list agrees with the
per-gene declared set. -/
theorem claim_C7_witness :
    (generate_summary [⟨"CYP2C19", "Poor Metabolizer", 0, "Poor Metabolizer"⟩]
        []).requires_intervention = true ∧
    ("DPD Intermediate Activity" ∈
      "Unknown" :: ((phenotype_mappings.lookup "DPYD").getD []).map
        (fun r => r.label)) ∧
    ("Normal Metabolizer" ∈ normal_phenotypes ↔
      "Normal Metabolizer" ∈ specNormalLabelSet "CYP2C19") :=
  ⟨(claim_C7 [⟨"CYP2C19", "Poor Metabolizer", 0, "Poor Metabolizer"⟩] []).2.2.1.mpr
    ⟨⟨"CYP2C19", "Poor Metabolizer", 0, "Poor Metabolizer"⟩,
     List.mem_cons_self _ _, by decide⟩,
   (claim_C7 [] []).2.2.2.1
     ⟨"DPYD", ⟨"*2A", .NO_FUNCTION, 0⟩, ⟨"*1", .NORMAL, 1⟩, "*2A/*1"⟩
     ⟨"DPYD", "DPD Intermediate Activity", 1, "DPD Intermediate Activity"⟩
     (by with_unfolding_all rfl),
   (claim_C7 [] []).2.2.2.2
     ⟨"CYP2C19", "Normal Metabolizer", 0, "Normal Metabolizer"⟩ (by decide)⟩

end PGx
